import Mathlib

/-!
Shallow embedding of mvnparser (parser.go): a Maven POM XML decoder and a
case-insensitive property lookup.

XML documents are modelled as element trees (`Xml`).  The declarative struct-tag
decoding of Go's encoding/xml is embedded field by field, faithful to the tags
written in parser.go:

* a scalar string field tagged with an element name takes the character data of
  the last matching child element, and is the empty string when no child
  matches (encoding/xml decodes every matching element into the same field, so
  the last occurrence wins);
* a slice field tagged with a container-item path such as
  dependencies>dependency collects, over every matching container child in
  order, every matching item grandchild;
* a struct field decodes from the concatenation of the children of every
  matching child element (each occurrence is unmarshalled into the same value,
  field by field);
* the Properties field uses the custom UnmarshalXML of parser.go: every
  immediate child element of properties, whatever its tag, contributes one
  entry keyed by its local tag name with its character data as value, merged
  into one map, last occurrence winning.

The file read and the well-formedness layer of xml.Unmarshal are external to
the repository, so `Parse` is parameterised by the file system (`FileResult`)
and by the XML syntax layer (a function from the raw bytes to either a syntax
error or a root element tree).  `ParseResult.fatal` embeds `log.Fatalf`:
reaching it means the Go process terminates instead of returning to the caller.

Go's strings.ToLower is embedded as a character-wise lowercase map
(`strToLower`); the Go map type is embedded as an association list with unique
keys (`Properties`), built by last-wins insertion.
-/

namespace Mvnparser

/-- XML element tree: an element with a local tag name and children, or
character data. -/
inductive Xml where
  | elem (name : String) (children : List Xml)
  | text (s : String)

/-- Immediate child elements of a node list, as (local tag name, children)
pairs; character data nodes are not elements. -/
def childElems : List Xml → List (String × List Xml)
  | [] => []
  | Xml.elem n cs :: rest => (n, cs) :: childElems rest
  | Xml.text _ :: rest => childElems rest

/-- Children lists of every immediate child element with the given local tag
name, in document order. -/
def selectChildren (name : String) (cs : List Xml) : List (List Xml) :=
  cs.filterMap (fun c => match c with
    | Xml.elem n body => if n == name then some body else none
    | Xml.text _ => none)

/-- Character data directly inside an element: the concatenation of its
immediate text children (encoding/xml skips unknown sub-elements). -/
def textContent (cs : List Xml) : String :=
  cs.foldl (fun acc c => match c with
    | Xml.text s => acc ++ s
    | Xml.elem _ _ => acc) ""

/-- Decoding of a scalar string field bound to an element name: encoding/xml
decodes every matching child into the field, so the last occurrence wins; an
absent element leaves the zero value "". -/
def decodeScalar (name : String) (cs : List Xml) : String :=
  match (selectChildren name cs).getLast? with
  | some body => textContent body
  | none => ""

/-- Decoding source of a struct field bound to an element name: every matching
child element is unmarshalled into the same struct value in order, which for
the per-field last-wins rule is the concatenation of their children. -/
def mergedChildren (name : String) (cs : List Xml) : List Xml :=
  (selectChildren name cs).flatten

/-- Items selected by a Go container-item tag path such as
dependencies>dependency: every item grandchild of every container child. -/
def nestedItems (container item : String) (cs : List Xml) : List (List Xml) :=
  (selectChildren container cs).flatMap (selectChildren item)

/-- Character-wise lowercase map, embedding strings.ToLower as used by
GetProperty (the stored and queried keys compared by the claims are ASCII). -/
def strToLower (s : String) : String :=
  ⟨s.data.map Char.toLower⟩

/-- Go map[string]string embedded as an association list with unique keys. -/
abbrev Properties := List (String × String)

/-- Assignment m[k] = v on the association-list embedding of a Go map: replace
the binding of k if present, append it otherwise. -/
def mapInsert : Properties → String → String → Properties
  | [], k, v => [(k, v)]
  | p :: t, k, v => if p.1 == k then (k, v) :: t else p :: mapInsert t k v

/-- Lookup in the association-list embedding of a Go map. -/
def mapLookup (m : Properties) (k : String) : Option String :=
  (m.find? (fun p => p.1 == k)).map Prod.snd

/-- Entries collected by the propertyEntries struct of parser.go: the
xml:",any" field matches every immediate child element of properties, whatever
its tag; each entry is its local tag name and its character data. -/
def propertyEntries (cs : List Xml) : List (String × String) :=
  (childElems cs).map (fun e => (e.1, textContent e.2))

/-- Properties.UnmarshalXML of parser.go: decode the entries of the properties
element and assign each into the map in order (so, on duplicate tag names, the
last occurrence wins); with no entry the map stays nil, embedded as []. -/
def unmarshalProperties (cs : List Xml) : Properties :=
  (propertyEntries cs).foldl (fun m e => mapInsert m e.1 e.2) []

/-- Parent struct of parser.go. -/
structure Parent where
  groupId : String
  artifactId : String
  version : String
deriving DecidableEq

/-- Exclusion struct of parser.go (XMLName records the element tag). -/
structure Exclusion where
  xmlName : String
  groupId : String
  artifactId : String
deriving DecidableEq

/-- Dependency struct of parser.go. -/
structure Dependency where
  xmlName : String
  groupId : String
  artifactId : String
  version : String
  classifier : String
  type : String
  scope : String
  exclusions : List Exclusion
deriving DecidableEq

/-- DependencyManagement struct of parser.go. -/
structure DependencyManagement where
  dependencies : List Dependency
deriving DecidableEq

/-- Repository struct of parser.go. -/
structure Repository where
  id : String
  name : String
  url : String
deriving DecidableEq

/-- Plugin struct of parser.go. -/
structure Plugin where
  xmlName : String
  groupId : String
  artifactId : String
  version : String
deriving DecidableEq

/-- Build struct of parser.go. -/
structure Build where
  plugins : List Plugin
deriving DecidableEq

/-- Profile struct of parser.go. -/
structure Profile where
  id : String
  build : Build
deriving DecidableEq

/-- PluginRepository struct of parser.go. -/
structure PluginRepository where
  id : String
  name : String
  url : String
deriving DecidableEq

/-- MavenProject struct of parser.go; xmlName records the root element tag. -/
structure MavenProject where
  xmlName : String
  modelVersion : String
  parent : Parent
  groupId : String
  artifactId : String
  version : String
  packaging : String
  name : String
  repositories : List Repository
  properties : Properties
  dependencyManagement : DependencyManagement
  dependencies : List Dependency
  profiles : List Profile
  build : Build
  pluginRepositories : List PluginRepository
deriving DecidableEq

/-- Decoding of a parent element's children by the Parent struct tags. -/
def decodeParent (cs : List Xml) : Parent :=
  { groupId := decodeScalar "groupId" cs
    artifactId := decodeScalar "artifactId" cs
    version := decodeScalar "version" cs }

/-- Decoding of an exclusion element's children by the Exclusion struct tags. -/
def decodeExclusion (cs : List Xml) : Exclusion :=
  { xmlName := "exclusion"
    groupId := decodeScalar "groupId" cs
    artifactId := decodeScalar "artifactId" cs }

/-- Decoding of a dependency element's children by the Dependency struct tags,
including the exclusions>exclusion nested list. -/
def decodeDependency (cs : List Xml) : Dependency :=
  { xmlName := "dependency"
    groupId := decodeScalar "groupId" cs
    artifactId := decodeScalar "artifactId" cs
    version := decodeScalar "version" cs
    classifier := decodeScalar "classifier" cs
    type := decodeScalar "type" cs
    scope := decodeScalar "scope" cs
    exclusions := (nestedItems "exclusions" "exclusion" cs).map decodeExclusion }

/-- Decoding of a dependencyManagement element's children by the
DependencyManagement struct tags (dependencies>dependency). -/
def decodeDependencyManagement (cs : List Xml) : DependencyManagement :=
  { dependencies := (nestedItems "dependencies" "dependency" cs).map decodeDependency }

/-- Decoding of a repository element's children by the Repository struct tags. -/
def decodeRepository (cs : List Xml) : Repository :=
  { id := decodeScalar "id" cs
    name := decodeScalar "name" cs
    url := decodeScalar "url" cs }

/-- Decoding of a plugin element's children by the Plugin struct tags. -/
def decodePlugin (cs : List Xml) : Plugin :=
  { xmlName := "plugin"
    groupId := decodeScalar "groupId" cs
    artifactId := decodeScalar "artifactId" cs
    version := decodeScalar "version" cs }

/-- Decoding of a build element's children by the Build struct tags
(plugins>plugin). -/
def decodeBuild (cs : List Xml) : Build :=
  { plugins := (nestedItems "plugins" "plugin" cs).map decodePlugin }

/-- Decoding of one element's children by the Profile struct tags (id, build).
The MavenProject field tag is xml:"profiles", so what is decoded this way is a
whole profiles element, not each profile child. -/
def decodeProfile (cs : List Xml) : Profile :=
  { id := decodeScalar "id" cs
    build := decodeBuild (mergedChildren "build" cs) }

/-- Decoding of a pluginRepository element's children by the PluginRepository
struct tags. -/
def decodePluginRepository (cs : List Xml) : PluginRepository :=
  { id := decodeScalar "id" cs
    name := decodeScalar "name" cs
    url := decodeScalar "url" cs }

/-- Decoding of the root element's children by the MavenProject struct tags of
parser.go.  Note the Profiles field tag is xml:"profiles" (not
profiles>profile), so each profiles child element itself becomes one Profile
entry. -/
def decodeProjectFields (rootName : String) (cs : List Xml) : MavenProject :=
  { xmlName := rootName
    modelVersion := decodeScalar "modelVersion" cs
    parent := decodeParent (mergedChildren "parent" cs)
    groupId := decodeScalar "groupId" cs
    artifactId := decodeScalar "artifactId" cs
    version := decodeScalar "version" cs
    packaging := decodeScalar "packaging" cs
    name := decodeScalar "name" cs
    repositories := (nestedItems "repositories" "repository" cs).map decodeRepository
    properties := unmarshalProperties (mergedChildren "properties" cs)
    dependencyManagement := decodeDependencyManagement (mergedChildren "dependencyManagement" cs)
    dependencies := (nestedItems "dependencies" "dependency" cs).map decodeDependency
    profiles := (selectChildren "profiles" cs).map decodeProfile
    build := decodeBuild (mergedChildren "build" cs)
    pluginRepositories :=
      (nestedItems "pluginRepositories" "pluginRepository" cs).map decodePluginRepository }

/-- Structural decode of xml.Unmarshal into MavenProject: the XMLName tag
xml:"project" requires the root element to be named project. -/
def unmarshalProject (root : Xml) : Except String MavenProject :=
  match root with
  | Xml.elem n cs =>
      if n == "project" then Except.ok (decodeProjectFields n cs)
      else Except.error ("expected element type <project> but have <" ++ n ++ ">")
  | Xml.text _ => Except.error "EOF"

/-- Outcome of os.Open followed by ioutil.ReadAll on a path: an open error, a
read error, or the file's byte content. -/
inductive FileResult where
  | openErr (cause : String)
  | readErr (cause : String)
  | content (bytes : String)

/-- Outcome of Parse.  ok and err are the two values the Go function can
return; fatal embeds log.Fatalf, which terminates the process so that nothing
is returned to the caller at all. -/
inductive ParseResult where
  | ok (project : MavenProject)
  | err (msg : String)
  | fatal (logMsg : String)
deriving DecidableEq

/-- Parse of parser.go, parameterised by the XML syntax layer of xml.Unmarshal
(from raw bytes to a syntax error or the root element tree) and by the file
system.  An open or read failure returns an error wrapping the path and the
cause; an unmarshal failure of either layer reaches log.Fatalf. -/
def Parse (xmlSyntax : String → Except String Xml) (fs : String → FileResult)
    (pomxmlPath : String) : ParseResult :=
  match fs pomxmlPath with
  | FileResult.openErr cause =>
      ParseResult.err ("can't open file " ++ pomxmlPath ++ ", " ++ cause)
  | FileResult.readErr cause =>
      ParseResult.err ("can't read file " ++ pomxmlPath ++ ", " ++ cause)
  | FileResult.content bytes =>
      match xmlSyntax bytes with
      | Except.error reason =>
          ParseResult.fatal ("unable to unmarshal pom file. Reason: " ++ reason)
      | Except.ok root =>
          match unmarshalProject root with
          | Except.error reason =>
              ParseResult.fatal ("unable to unmarshal pom file. Reason: " ++ reason)
          | Except.ok project => ParseResult.ok project

/-- GetProperty of parser.go: scan the property map comparing keys after
strings.ToLower on both sides; return the value and true on a match, "" and
false otherwise. -/
def MavenProject.GetProperty (mp : MavenProject) (key : String) : String × Bool :=
  match mp.properties.find? (fun p => strToLower p.1 == strToLower key) with
  | some p => (p.2, true)
  | none => ("", false)

theorem selectChildren_append (n : String) (l1 l2 : List Xml) :
    selectChildren n (l1 ++ l2) = selectChildren n l1 ++ selectChildren n l2 := by
  simp [selectChildren, List.filterMap_append]

theorem selectChildren_cons_elem (n : String) (body : List Xml) (rest : List Xml) :
    selectChildren n (Xml.elem n body :: rest) = body :: selectChildren n rest := by
  simp [selectChildren]

theorem decodeScalar_absent (n : String) (cs : List Xml)
    (h : selectChildren n cs = []) : decodeScalar n cs = "" := by
  unfold decodeScalar
  rw [h]
  rfl

theorem mergedChildren_absent (n : String) (cs : List Xml)
    (h : selectChildren n cs = []) : mergedChildren n cs = [] := by
  unfold mergedChildren
  rw [h]
  rfl

theorem nestedItems_absent (c i : String) (cs : List Xml)
    (h : selectChildren c cs = []) : nestedItems c i cs = [] := by
  unfold nestedItems
  rw [h]
  rfl

theorem mapLookup_mapInsert (m : Properties) (k v q : String) :
    mapLookup (mapInsert m k v) q = if k = q then some v else mapLookup m q := by
  induction m with
  | nil =>
    by_cases h : k = q
    · subst h; simp [mapInsert, mapLookup, List.find?]
    · have hb : (k == q) = false := by simp [h]
      simp [mapInsert, mapLookup, List.find?, h, hb]
  | cons a t ih =>
    by_cases h1 : a.1 = k
    · by_cases h2 : k = q
      · subst h2
        simp [mapInsert, mapLookup, List.find?, h1]
      · have h3 : a.1 ≠ q := fun hc => h2 (h1 ▸ hc)
        have hb : (k == q) = false := by simp [h2]
        have hb3 : (a.1 == q) = false := by simp [h3]
        simp [mapInsert, mapLookup, List.find?, h1, h2, h3, hb, hb3]
    · by_cases h2 : a.1 = q
      · subst h2
        have h3 : k ≠ a.1 := fun hc => h1 hc.symm
        have hb1 : (a.1 == k) = false := by simp [h1]
        have hb3 : (k == a.1) = false := by simp [h3]
        simp [mapInsert, mapLookup, List.find?, hb1, hb3, h3]
      · have hb1 : (a.1 == k) = false := by simp [h1]
        have hb2 : (a.1 == q) = false := by simp [h2]
        simp only [mapInsert, mapLookup] at ih ⊢
        simp [List.find?, hb1, hb2, ih]

theorem mapLookup_fold (es : List (String × String)) (m : Properties) (k : String) :
    mapLookup (es.foldl (fun acc e => mapInsert acc e.1 e.2) m) k
      = ((es.reverse.find? (fun e => e.1 == k)).map Prod.snd).or (mapLookup m k) := by
  induction es generalizing m with
  | nil => simp
  | cons a t ih =>
    rw [List.foldl_cons, ih, List.reverse_cons, List.find?_append]
    rw [mapLookup_mapInsert]
    cases hf : t.reverse.find? (fun e => e.1 == k) with
    | some e => simp
    | none =>
      by_cases h : a.1 = k
      · subst h; simp [List.find?]
      · have hb : (a.1 == k) = false := by simp [h]
        simp [List.find?, h, hb]

/-- Claim C1: the claim demands that malformed XML make Parse report a decode
error as a returned error value without terminating the process; the code
instead reaches log.Fatalf.  At a file whose content is the unclosed tag
string, with the XML syntax layer reporting the syntax error, Parse evaluates
to the process-terminating fatal outcome carrying the log message, not to an
err return. -/
theorem C1_decode_failure_hits_fatal :
    Parse (fun _ => Except.error "XML syntax error on line 1: unexpected EOF")
        (fun _ => FileResult.content "<project>") "pom.xml"
      = ParseResult.fatal
          "unable to unmarshal pom file. Reason: XML syntax error on line 1: unexpected EOF" := by
  rfl

/-- Claim C2: the claim demands one decoded Profile per profile child of the
profiles element; the Profiles field tag is xml:"profiles", so a profiles
element with two profile children decodes to a single entry with empty id and
empty build, its profile children ignored. -/
theorem C2_profiles_collapse :
    (decodeProjectFields "project"
        [Xml.elem "profiles"
          [Xml.elem "profile" [Xml.elem "id" [Xml.text "p1"]],
           Xml.elem "profile" [Xml.elem "id" [Xml.text "p2"]]]]).profiles
      = [{ id := "", build := { plugins := [] } }] := by
  rfl

/-- Claim C3: decoding a properties element records one entry per immediate
child element regardless of tag name, keyed by the child's local tag name with
its character data as value, uniformly for zero, one or many children, the
last occurrence winning on duplicate tags: looking up any key in the decoded
map gives exactly the value of the last child element with that tag. -/
theorem C3_properties_decode (cs : List Xml) (k : String) :
    mapLookup (unmarshalProperties cs) k
      = ((propertyEntries cs).reverse.find? (fun e => e.1 == k)).map Prod.snd := by
  unfold unmarshalProperties
  rw [mapLookup_fold]
  simp [mapLookup]

/-- Claim C4: a project decoded from a document whose properties element holds
java.version with text 11 answers GetProperty with ("11", true) both for
"java.version" and for "JAVA.VERSION": the lookup is case-insensitive. -/
theorem C4_case_insensitive_roundtrip :
    ((decodeProjectFields "project"
        [Xml.elem "properties" [Xml.elem "java.version" [Xml.text "11"]]]).GetProperty
        "java.version" = ("11", true)) ∧
    ((decodeProjectFields "project"
        [Xml.elem "properties" [Xml.elem "java.version" [Xml.text "11"]]]).GetProperty
        "JAVA.VERSION" = ("11", true)) := by
  constructor <;> decide

/-- Claim C5: when no stored property key matches the queried key under the
case-insensitive comparison, GetProperty returns the empty string and false. -/
theorem C5_absent_key (mp : MavenProject) (key : String)
    (h : ∀ p ∈ mp.properties, strToLower p.1 ≠ strToLower key) :
    mp.GetProperty key = ("", false) := by
  unfold MavenProject.GetProperty
  have hz : mp.properties.find? (fun p => strToLower p.1 == strToLower key) = none := by
    rw [List.find?_eq_none]
    intro x hx
    simpa using h x hx
  rw [hz]

/-- Concrete instance of C5_absent_key: a decoded project holding only the key
spring.version answers GetProperty "nonexistent" with ("", false). -/
theorem C5_absent_key_witness :
    (decodeProjectFields "project"
        [Xml.elem "properties"
          [Xml.elem "spring.version" [Xml.text "4.3.5.RELEASE"]]]).GetProperty
      "nonexistent" = ("", false) :=
  C5_absent_key _ "nonexistent" (by decide)

/-- Claim C6: when the file cannot be opened or cannot be read, Parse returns
an error value wrapping the path and the underlying cause (so no project is
produced: the outcome is the err constructor, not ok). -/
theorem C6_file_errors (xmlSyntax : String → Except String Xml)
    (fs : String → FileResult) (path : String) :
    (∀ cause, fs path = FileResult.openErr cause →
        Parse xmlSyntax fs path
          = ParseResult.err ("can't open file " ++ path ++ ", " ++ cause)) ∧
    (∀ cause, fs path = FileResult.readErr cause →
        Parse xmlSyntax fs path
          = ParseResult.err ("can't read file " ++ path ++ ", " ++ cause)) := by
  constructor <;> intro cause h <;> unfold Parse <;> rw [h]

/-- Concrete instance of C6_file_errors: a path whose open fails with a cause
string makes Parse return the err value naming the path and the cause. -/
theorem C6_file_errors_witness :
    Parse (fun _ => Except.error "e")
        (fun _ => FileResult.openErr "no such file or directory") "missing/pom.xml"
      = ParseResult.err "can't open file missing/pom.xml, no such file or directory" :=
  (C6_file_errors (fun _ => Except.error "e")
      (fun _ => FileResult.openErr "no such file or directory") "missing/pom.xml").1
    "no such file or directory" rfl

/-- Claim C7: in a decoded project, every list field whose XML section is
absent is the empty list, and every scalar string field whose element is
absent is the empty string (a parent element absent leaves the all-empty
Parent).  The exclusions, plugins and dependency-management conjuncts hold at
the level of the element the section belongs to. -/
theorem C7_absent_defaults (cs : List Xml) :
    (selectChildren "repositories" cs = [] →
        (decodeProjectFields "project" cs).repositories = []) ∧
    (selectChildren "dependencies" cs = [] →
        (decodeProjectFields "project" cs).dependencies = []) ∧
    (selectChildren "dependencyManagement" cs = [] →
        (decodeProjectFields "project" cs).dependencyManagement.dependencies = []) ∧
    (selectChildren "profiles" cs = [] →
        (decodeProjectFields "project" cs).profiles = []) ∧
    (selectChildren "build" cs = [] →
        (decodeProjectFields "project" cs).build.plugins = []) ∧
    (selectChildren "pluginRepositories" cs = [] →
        (decodeProjectFields "project" cs).pluginRepositories = []) ∧
    (∀ ds : List Xml, selectChildren "exclusions" ds = [] →
        (decodeDependency ds).exclusions = []) ∧
    (∀ bs : List Xml, selectChildren "plugins" bs = [] →
        (decodeBuild bs).plugins = []) ∧
    (∀ ms : List Xml, selectChildren "dependencies" ms = [] →
        (decodeDependencyManagement ms).dependencies = []) ∧
    (selectChildren "groupId" cs = [] →
        (decodeProjectFields "project" cs).groupId = "") ∧
    (selectChildren "artifactId" cs = [] →
        (decodeProjectFields "project" cs).artifactId = "") ∧
    (selectChildren "version" cs = [] →
        (decodeProjectFields "project" cs).version = "") ∧
    (selectChildren "modelVersion" cs = [] →
        (decodeProjectFields "project" cs).modelVersion = "") ∧
    (selectChildren "packaging" cs = [] →
        (decodeProjectFields "project" cs).packaging = "") ∧
    (selectChildren "name" cs = [] →
        (decodeProjectFields "project" cs).name = "") ∧
    (selectChildren "parent" cs = [] →
        (decodeProjectFields "project" cs).parent
          = { groupId := "", artifactId := "", version := "" }) := by
  refine ⟨?_, ?_, ?_, ?_, ?_, ?_, ?_, ?_, ?_, ?_, ?_, ?_, ?_, ?_, ?_, ?_⟩
  · intro h
    show (nestedItems "repositories" "repository" cs).map decodeRepository = []
    rw [nestedItems_absent _ _ _ h]
    rfl
  · intro h
    show (nestedItems "dependencies" "dependency" cs).map decodeDependency = []
    rw [nestedItems_absent _ _ _ h]
    rfl
  · intro h
    show (decodeDependencyManagement (mergedChildren "dependencyManagement" cs)).dependencies = []
    rw [mergedChildren_absent _ _ h]
    rfl
  · intro h
    show (selectChildren "profiles" cs).map decodeProfile = []
    rw [h]
    rfl
  · intro h
    show (decodeBuild (mergedChildren "build" cs)).plugins = []
    rw [mergedChildren_absent _ _ h]
    rfl
  · intro h
    show (nestedItems "pluginRepositories" "pluginRepository" cs).map decodePluginRepository = []
    rw [nestedItems_absent _ _ _ h]
    rfl
  · intro ds h
    show (nestedItems "exclusions" "exclusion" ds).map decodeExclusion = []
    rw [nestedItems_absent _ _ _ h]
    rfl
  · intro bs h
    show (nestedItems "plugins" "plugin" bs).map decodePlugin = []
    rw [nestedItems_absent _ _ _ h]
    rfl
  · intro ms h
    show (nestedItems "dependencies" "dependency" ms).map decodeDependency = []
    rw [nestedItems_absent _ _ _ h]
    rfl
  · intro h
    exact decodeScalar_absent _ _ h
  · intro h
    exact decodeScalar_absent _ _ h
  · intro h
    exact decodeScalar_absent _ _ h
  · intro h
    exact decodeScalar_absent _ _ h
  · intro h
    exact decodeScalar_absent _ _ h
  · intro h
    exact decodeScalar_absent _ _ h
  · intro h
    show decodeParent (mergedChildren "parent" cs)
        = { groupId := "", artifactId := "", version := "" }
    rw [mergedChildren_absent _ _ h]
    rfl

/-- Concrete instance of C7_absent_defaults at the empty document: every list
field is empty and every scalar field is the empty string. -/
theorem C7_absent_defaults_witness :
    (decodeProjectFields "project" []).repositories = [] ∧
    (decodeProjectFields "project" []).dependencies = [] ∧
    (decodeProjectFields "project" []).dependencyManagement.dependencies = [] ∧
    (decodeProjectFields "project" []).profiles = [] ∧
    (decodeProjectFields "project" []).build.plugins = [] ∧
    (decodeProjectFields "project" []).pluginRepositories = [] ∧
    (decodeDependency []).exclusions = [] ∧
    (decodeBuild []).plugins = [] ∧
    (decodeDependencyManagement []).dependencies = [] ∧
    (decodeProjectFields "project" []).groupId = "" ∧
    (decodeProjectFields "project" []).artifactId = "" ∧
    (decodeProjectFields "project" []).version = "" ∧
    (decodeProjectFields "project" []).modelVersion = "" ∧
    (decodeProjectFields "project" []).packaging = "" ∧
    (decodeProjectFields "project" []).name = "" ∧
    (decodeProjectFields "project" []).parent
      = { groupId := "", artifactId := "", version := "" } := by
  obtain ⟨h1, h2, h3, h4, h5, h6, h7, h8, h9, h10, h11, h12, h13, h14, h15, h16⟩ :=
    C7_absent_defaults []
  exact ⟨h1 rfl, h2 rfl, h3 rfl, h4 rfl, h5 rfl, h6 rfl, h7 [] rfl, h8 [] rfl,
    h9 [] rfl, h10 rfl, h11 rfl, h12 rfl, h13 rfl, h14 rfl, h15 rfl, h16 rfl⟩

/-- Claim C8: Parse is deterministic in its input: two runs on the same file
system, syntax layer and path that produce projects produce structurally equal
projects. -/
theorem C8_parse_deterministic (xmlSyntax : String → Except String Xml)
    (fs : String → FileResult) (path : String) (p1 p2 : MavenProject)
    (h1 : Parse xmlSyntax fs path = ParseResult.ok p1)
    (h2 : Parse xmlSyntax fs path = ParseResult.ok p2) : p1 = p2 := by
  rw [h1] at h2
  exact ParseResult.ok.inj h2

/-- Concrete instance of C8_parse_deterministic at a minimal document. -/
theorem C8_parse_deterministic_witness :
    decodeProjectFields "project" [] = decodeProjectFields "project" [] :=
  C8_parse_deterministic (fun _ => Except.ok (Xml.elem "project" []))
    (fun _ => FileResult.content "<project/>") "pom.xml"
    (decodeProjectFields "project" []) (decodeProjectFields "project" []) rfl rfl

/-- Claim C9: a dependency element whose exclusions section holds two
exclusion children decodes to an exclusion list of length two whose entries
carry the groupId and artifactId of the corresponding children, whatever else
the dependency holds (provided no second exclusions section). -/
theorem C9_two_exclusions (pre post : List Xml) (g1 a1 g2 a2 : String)
    (h1 : selectChildren "exclusions" pre = [])
    (h2 : selectChildren "exclusions" post = []) :
    (decodeDependency (pre ++
        Xml.elem "exclusions"
          [Xml.elem "exclusion"
            [Xml.elem "groupId" [Xml.text g1], Xml.elem "artifactId" [Xml.text a1]],
           Xml.elem "exclusion"
            [Xml.elem "groupId" [Xml.text g2], Xml.elem "artifactId" [Xml.text a2]]]
        :: post)).exclusions
      = [{ xmlName := "exclusion", groupId := g1, artifactId := a1 },
         { xmlName := "exclusion", groupId := g2, artifactId := a2 }] := by
  show (nestedItems "exclusions" "exclusion" _).map decodeExclusion = _
  unfold nestedItems
  rw [selectChildren_append, h1, List.nil_append, selectChildren_cons_elem, h2]
  rfl

/-- Concrete instance of C9_two_exclusions: a dependency with coordinates and
two exclusions decodes them in order. -/
theorem C9_two_exclusions_witness :
    (decodeDependency
        ([Xml.elem "groupId" [Xml.text "org.example"]] ++
          Xml.elem "exclusions"
            [Xml.elem "exclusion"
              [Xml.elem "groupId" [Xml.text "gx1"], Xml.elem "artifactId" [Xml.text "ax1"]],
             Xml.elem "exclusion"
              [Xml.elem "groupId" [Xml.text "gx2"], Xml.elem "artifactId" [Xml.text "ax2"]]]
          :: [])).exclusions
      = [{ xmlName := "exclusion", groupId := "gx1", artifactId := "ax1" },
         { xmlName := "exclusion", groupId := "gx2", artifactId := "ax2" }] :=
  C9_two_exclusions [Xml.elem "groupId" [Xml.text "org.example"]] [] "gx1" "ax1" "gx2" "ax2"
    rfl rfl

/-- Claim C10: a project decoded from a document with no properties element,
or whose properties element has no child element (the map stays nil), answers
GetProperty with ("", false) for every key. -/
theorem C10_empty_properties (cs : List Xml) (key : String)
    (h : childElems (mergedChildren "properties" cs) = []) :
    (decodeProjectFields "project" cs).GetProperty key = ("", false) := by
  show MavenProject.GetProperty _ key = _
  unfold MavenProject.GetProperty
  have hp : (decodeProjectFields "project" cs).properties = [] := by
    show unmarshalProperties (mergedChildren "properties" cs) = []
    unfold unmarshalProperties propertyEntries
    rw [h]
    rfl
  rw [hp]
  rfl

/-- Concrete instance of C10_empty_properties: a document whose properties
element is empty yields ("", false) for an arbitrary key. -/
theorem C10_empty_properties_witness :
    (decodeProjectFields "project" [Xml.elem "properties" []]).GetProperty "java.version"
      = ("", false) :=
  C10_empty_properties [Xml.elem "properties" []] "java.version" rfl

end Mvnparser
